import Mathlib

/-!
Verification of the batch-pipeline scripts of the remote-health-ai-dataset
repository.  Each definition below is a shallow embedding of a function or
loop of one of the Python source files (the file and line are named in the
doc comment); theorems settle the frozen claims about those functions.

Strings handled character-by-character are modelled as `List Char`;
Python dicts keyed by strings are modelled as association lists with
leftmost-key lookup (Python dict keys are unique, so leftmost lookup
coincides with dict lookup on the images of the scripts' loops).
-/

/-- Python `\s` character class (`str.strip` and regex whitespace):
space, tab, newline, carriage return, vertical tab, form feed. -/
def isPySpace (c : Char) : Bool :=
  c = ' ' || c = '\t' || c = '\n' || c = '\r' || c = '\x0b' || c = '\x0c'

/-- Python `str.strip()`: drop leading and trailing whitespace. -/
def pyStrip (s : List Char) : List Char :=
  ((s.dropWhile isPySpace).reverse.dropWhile isPySpace).reverse

/-- ASCII letter, the `[a-zA-Z]` class of the opening-fence regex. -/
def isAsciiLetter (c : Char) : Bool :=
  ('a' ≤ c && c ≤ 'z') || ('A' ≤ c && c ≤ 'Z')

/-- `re.sub(r"^```[a-zA-Z]*\s*", "", raw)` of generate_complaints.py line 22:
remove an opening code fence (three backticks, a language word, whitespace)
anchored at the start; leave other strings unchanged. -/
def stripOpenFence (s : List Char) : List Char :=
  match s with
  | '`' :: '`' :: '`' :: rest => (rest.dropWhile isAsciiLetter).dropWhile isPySpace
  | _ => s

/-- `re.sub(r"\s*```$", "", raw)` of generate_complaints.py line 23: remove a
closing code fence at the end together with the whitespace before it.  The
input reaching this substitution has already been stripped of trailing
whitespace (generate_complaints.py line 18), so `$` is the end of string. -/
def stripCloseFence (s : List Char) : List Char :=
  match s.reverse with
  | '`' :: '`' :: '`' :: rest => (rest.dropWhile isPySpace).reverse
  | _ => s

/-- Suffix of `s` starting at its first `'['`, or `none` when `s` has no
`'['` — the leftmost start of a `re.search(r"\[.*\]", raw, re.S)` match. -/
def fromFirstLBracket : List Char → Option (List Char)
  | [] => none
  | c :: cs => if c = '[' then some (c :: cs) else fromFirstLBracket cs

/-- Prefix of `s` ending at its last `']'`, or `none` when `s` has no `']'`
— the greedy `.*` of `re.search(r"\[.*\]", raw, re.S)` backtracks to the
last `']'` of the string. -/
def toLastRBracket (s : List Char) : Option (List Char) :=
  match s.reverse.dropWhile (fun c => !(c = ']')) with
  | [] => none
  | r => some r.reverse

/-- `clean_json` of generate_complaints.py lines 16-27: strip the string,
remove a ```-fence pair when the string starts with one, then return the
first-`[`-to-last-`]` span (the greedy DOTALL array match), or the empty
string when no such span exists. -/
def cleanJson (raw : List Char) : List Char :=
  let s := pyStrip raw
  let s := if s.take 3 = ['`', '`', '`'] then stripCloseFence (stripOpenFence s) else s
  match fromFirstLBracket s with
  | none => []
  | some t =>
    match toLastRBracket t with
    | none => []
    | some u => u

/-- C3 counterexample input: content whose embedded JSON value is an object,
not an array. -/
def objNoise : List Char := ("Sure! \x7b\"a\":1\x7d Hope that helps!").toList

/-- C3: the claim states that extraction applied to the raw content
`"```json\n[1,2,3]\n```"` yields `[1,2,3]` and applied to
`"Sure! \x7b"a":1\x7d Hope that helps!"` yields the object — but `clean_json`
(generate_complaints.py lines 16-27) searches only for a bracketed array
(`re.search(r"\[.*\]")`) and returns the empty string on the second input,
so extraction fails there instead of yielding the object. -/
theorem clean_json_object_not_recovered :
    cleanJson objNoise = [] ∧ cleanJson objNoise ≠ ("\x7b\"a\":1\x7d").toList := by
  exact ⟨by decide, by decide⟩

/-- C3 (amended): `clean_json` recovers the embedded JSON array from fenced
content — on `"```json\n[1,2,3]\n```"` it yields `[1,2,3]` — while on
object-bearing content with no square brackets, such as
`"Sure! \x7b"a":1\x7d Hope that helps!"`, it finds no array and returns the
empty string, so extraction fails rather than yielding the object. -/
theorem clean_json_array_extraction :
    cleanJson (("```json\n[1,2,3]\n```").toList) = ("[1,2,3]").toList ∧
    cleanJson objNoise = [] := by
  exact ⟨by decide, by decide⟩

/-- Outcome of the batch poll loop: normal exit on `"completed"`, or the
fatal abort carrying the terminal status string
(generate_transcriptions_batch.py line 171 / generate_soap_notes.py line 152). -/
inductive PollOutcome where
  | success : PollOutcome
  | jobFailed : String → PollOutcome
deriving DecidableEq

/-- The poll loop of generate_transcriptions_batch.py lines 167-176 (same
shape at generate_soap_notes.py lines 149-155), run against a scripted
sequence of statuses (one status per `batches.retrieve` call): if the
status is in `\x7b"failed", "expired"\x7d` the loop aborts, if it is
`"completed"` it exits normally, otherwise it sleeps and polls again.  The
result carries the number of polls issued; a script too short to reach a
terminal status gives `none`. -/
def runPoller : List String → Option (PollOutcome × Nat)
  | [] => none
  | s :: rest =>
    if s = "failed" ∨ s = "expired" then some (.jobFailed s, 1)
    else if s = "completed" then some (.success, 1)
    else (runPoller rest).map (fun p => (p.1, p.2 + 1))

/-- C5: on the scripted status sequence [Pending, Running, Completed] the
poll loop returns success after exactly 3 polls and never issues another
poll afterward (any statuses scripted after the terminal one are never
consumed), and on [Pending, Failed] it aborts with the job-failed error
after exactly 2 polls, the terminal-failure path never being retried. -/
theorem poller_scripted_sequences (rest₁ rest₂ : List String) :
    runPoller ((["pending", "running", "completed"]) ++ rest₁) =
      some (PollOutcome.success, 3) ∧
    runPoller ((["pending", "failed"]) ++ rest₂) =
      some (PollOutcome.jobFailed ("failed"), 2) := by
  constructor <;> rfl

/-- `str.split(delim)` at the first occurrence of `'_'`: `some (a, b)` when
the input is `a ++ '_' :: b` with `'_' ∉ a`, `none` when the input has no
underscore. -/
def splitOnceU : List Char → Option (List Char × List Char)
  | [] => none
  | c :: cs =>
    if c = '_' then some ([], cs)
    else
      match splitOnceU cs with
      | some (a, b) => some (c :: a, b)
      | none => none

/-- Python `s.split("_", 2)`: at most two splits, everything after the
second underscore (further underscores included) lands in the third part. -/
def pySplit2U (s : List Char) : List (List Char) :=
  match splitOnceU s with
  | none => [s]
  | some (a, r) =>
    match splitOnceU r with
    | none => [a, r]
    | some (b, r2) => [a, b, r2]

/-- The composite custom_id written by generate_soap_sections.py line 113:
`f"\x7bcid\x7d_\x7blabel\x7d_\x7bslug\x7d"`. -/
def encodeCustomId (parent label slug : List Char) : List Char :=
  parent ++ '_' :: (label ++ '_' :: slug)

/-- The decode of generate_soap_sections.py line 166:
`cid, section, slug = j["custom_id"].split("_", 2)` — defined exactly when
the split yields three parts. -/
def decodeCustomId (s : List Char) : Option (List Char × List Char × List Char) :=
  match pySplit2U s with
  | [a, b, c] => some (a, b, c)
  | _ => none

/-- The four SOAP section labels the augmentation stage fans out over
(keys of the JSON object requested at generate_soap_notes.py lines 103-108,
iterated by generate_soap_sections.py line 104). -/
def sectionLabels : List String := ["subjective", "objective", "assessment", "plan"]

/-- The five paraphrase format slugs, generate_soap_sections.py lines 57-63
(`FORMAT_VARIANTS`). -/
def formatSlugs : List String := ["simple", "bullets", "narrative", "brev_bp", "detailed"]

theorem splitOnceU_append (a b : List Char) (h : '_' ∉ a) :
    splitOnceU (a ++ '_' :: b) = some (a, b) := by
  induction a with
  | nil => simp [splitOnceU]
  | cons c cs ih =>
    have hc : ¬(c = '_') := fun e => h (e ▸ List.mem_cons_self c cs)
    have hcs : '_' ∉ cs := fun m => h (List.mem_cons_of_mem c m)
    simp only [List.cons_append, splitOnceU, if_neg hc, List.append_eq, ih hcs]

/-- C2: decoding an encoded composite correlation id recovers exactly the
(parent, section label, format slug) triple that produced it, for every
parent id not containing the delimiter `'_'` and every (label, slug) pair
the augmentation stage uses — including the slug `"brev_bp"`, whose own
underscore is preserved by the `maxsplit=2` of the decode. -/
theorem customId_roundtrip (parent label slug : List Char)
    (hp : '_' ∉ parent)
    (hl : label ∈ sectionLabels.map String.toList)
    (_hs : slug ∈ formatSlugs.map String.toList) :
    decodeCustomId (encodeCustomId parent label slug) = some (parent, label, slug) := by
  have hlu : '_' ∉ label := by
    simp only [sectionLabels, List.map_cons, List.map_nil, List.mem_cons,
      List.not_mem_nil, or_false] at hl
    rcases hl with h | h | h | h <;> subst h <;> decide
  have h1 : splitOnceU (encodeCustomId parent label slug) =
      some (parent, label ++ '_' :: slug) :=
    splitOnceU_append parent _ hp
  have h2 : splitOnceU (label ++ '_' :: slug) = some (label, slug) :=
    splitOnceU_append label _ hlu
  simp [decodeCustomId, pySplit2U, h1, h2]

/-- C2 witness: the round-trip at the concrete id
`"row0001_subjective_brev_bp"`. -/
theorem customId_roundtrip_witness :
    decodeCustomId (encodeCustomId (("row0001").toList) (("subjective").toList)
      (("brev_bp").toList)) =
      some (("row0001").toList, ("subjective").toList, ("brev_bp").toList) :=
  customId_roundtrip (("row0001").toList) (("subjective").toList) (("brev_bp").toList)
    (by decide) (by decide) (by decide)

/-- Drop an expected leading character sequence: `some rest` when `s` is
`pat ++ rest`, else `none` — the literal part of an anchored `re.match`. -/
def dropHeadSeq : List Char → List Char → Option (List Char)
  | [], s => some s
  | _ :: _, [] => none
  | p :: ps, c :: cs => if p = c then dropHeadSeq ps cs else none

/-- Scan a reversed string for the first adjacent `'\x7d'`, `'"'` pair —
the last occurrence of `"\x7d` in the forward string, where the greedy
`(.*)` of the transcription regex ends. -/
def dropToClose : List Char → Option (List Char)
  | '\x7d' :: '"' :: rest => some rest
  | _ :: rest => dropToClose rest
  | [] => none

/-- `grab_tx.match(content)` with
`grab_tx = re.compile(r'\x7b"transcription"\s*:\s*"(.*)"\x7d', re.S)`
(generate_soap_notes.py line 71): anchored at the start, the content must
open with `\x7b"transcription"`, optional whitespace, `:`, optional
whitespace, `"`; the greedy DOTALL capture then runs to the last `"\x7d`
of the string.  Returns the captured group, or `none` when the pattern
does not match. -/
def grabTx (content : List Char) : Option (List Char) :=
  match dropHeadSeq (("\x7b\"transcription\"").toList) content with
  | none => none
  | some r1 =>
    match r1.dropWhile isPySpace with
    | ':' :: r2 =>
      match r2.dropWhile isPySpace with
      | '"' :: body => (dropToClose body.reverse).map List.reverse
      | _ => none
    | _ => none

/-- One line of batch_output.jsonl as consumed by the transcription loader
(generate_soap_notes.py lines 73-88): the correlation id, the response
status code, and the message content. -/
structure TxRecord where
  custom_id : String
  status : Nat
  content : List Char
deriving DecidableEq

/-- The transcription-loading loop of generate_soap_notes.py lines 73-88:
records with a non-200 status are skipped; for each 200 record the content
goes through `grab_tx`, and on the first content the regex cannot match the
loop raises `ValueError(f"Bad JSON in transcription for \x7bcustom_id\x7d")`,
aborting the whole load. -/
def processTxRecords : List TxRecord → Except String (List (String × List Char))
  | [] => .ok []
  | r :: rest =>
    if r.status = 200 then
      match grabTx r.content with
      | some tx => (processTxRecords rest).map (fun m => (r.custom_id, tx) :: m)
      | none => .error ("Bad JSON in transcription for " ++ r.custom_id)
    else processTxRecords rest

/-- A well-formed transcription content, used in the C4 inputs. -/
def goodTxContent : List Char := ("\x7b\"transcription\": \"hello doctor\"\x7d").toList

/-- C4 counterexample input: three successful records, the middle one with
content the transcription regex cannot match. -/
def txBatchWithBad : List TxRecord :=
  [⟨"row0", 200, goodTxContent⟩, ⟨"row1", 200, ("no json here").toList⟩,
   ⟨"row2", 200, goodTxContent⟩]

/-- C4: the claim states the extraction failure is per-record and non-fatal
— failures accumulated and the stage succeeding with a reduced output set —
but on a batch with one unparseable record among successes the loader of
generate_soap_notes.py lines 73-88 aborts the whole batch with the raised
error (carrying the bad record's correlation id) instead of returning any
reduced output. -/
theorem processTx_batch_aborts :
    processTxRecords txBatchWithBad = .error ("Bad JSON in transcription for row1") ∧
    ∀ m, processTxRecords txBatchWithBad ≠ .ok m := by
  refine ⟨rfl, ?_⟩
  intro m h
  rw [show processTxRecords txBatchWithBad =
    .error ("Bad JSON in transcription for row1") from rfl] at h
  exact Except.noConfusion h

/-- C4 (amended): when the parser cannot locate a structured payload in a
successful record's content, it fails with an error that carries that
record's correlation id, but the failure is fatal to the whole batch: the
first failing record aborts the stage, failures are not accumulated, and
the stage does not succeed with a reduced output set. -/
theorem processTx_fatal_with_id (pre post : List TxRecord) (r : TxRecord)
    (h200 : r.status = 200) (hbad : grabTx r.content = none)
    (hpre : ∀ x ∈ pre, x.status = 200 → (grabTx x.content).isSome = true) :
    processTxRecords (pre ++ r :: post) =
      .error ("Bad JSON in transcription for " ++ r.custom_id) := by
  induction pre with
  | nil =>
    simp only [List.nil_append, processTxRecords, if_pos h200, hbad]
  | cons x xs ih =>
    have hxs : ∀ y ∈ xs, y.status = 200 → (grabTx y.content).isSome = true :=
      fun y hy => hpre y (List.mem_cons_of_mem x hy)
    have htail := ih hxs
    by_cases hx : x.status = 200
    · have hsome : (grabTx x.content).isSome = true :=
        hpre x (List.mem_cons_self x xs) hx
      obtain ⟨tx, htx⟩ := Option.isSome_iff_exists.mp hsome
      simp only [List.cons_append, processTxRecords, if_pos hx, htx,
        List.append_eq, htail, Except.map]
    · simp only [List.cons_append, processTxRecords, if_neg hx, List.append_eq, htail]

/-- C4 witness: the fatal abort with the bad record's id, at a concrete
batch of one good record, one bad record, one good record. -/
theorem processTx_fatal_with_id_witness :
    processTxRecords ([⟨"rowA", 200, goodTxContent⟩] ++
        (⟨"rowB", 200, ("garbage").toList⟩ : TxRecord) :: [⟨"rowC", 200, goodTxContent⟩]) =
      .error ("Bad JSON in transcription for " ++ "rowB") :=
  processTx_fatal_with_id [⟨"rowA", 200, goodTxContent⟩]
    [⟨"rowC", 200, goodTxContent⟩] ⟨"rowB", 200, ("garbage").toList⟩
    (by decide) (by decide) (by decide)

/-- Python `\x7b**base, **soap\x7d` (merge_soap_clean.py line 71,
generate_soap_notes.py line 171) on string-keyed dicts as association
lists: base keys first with soap values overriding on collision, then the
soap keys absent from base. -/
def pyMerge {α : Type} (a b : List (String × α)) : List (String × α) :=
  a.map (fun p => (p.1, ((b.lookup p.1).getD p.2))) ++
    b.filter (fun p => ((a.lookup p.1).isNone))

theorem lookup_append {α : Type} (l₁ l₂ : List (String × α)) (k : String) :
    (l₁ ++ l₂).lookup k =
      match l₁.lookup k with
      | some v => some v
      | none => l₂.lookup k := by
  induction l₁ with
  | nil => simp [List.lookup]
  | cons p l ih =>
    rcases p with ⟨k₀, v₀⟩
    cases h : k == k₀ with
    | true => simp [List.lookup, h]
    | false => simp [List.lookup, h, ih]

theorem lookup_map_getD {α : Type} (b a : List (String × α)) (k : String) :
    (a.map (fun p => (p.1, ((b.lookup p.1).getD p.2)))).lookup k =
      (a.lookup k).map (fun v => (b.lookup k).getD v) := by
  induction a with
  | nil => simp [List.lookup]
  | cons p l ih =>
    rcases p with ⟨k₀, v₀⟩
    cases h : k == k₀ with
    | true =>
      have hk : k = k₀ := beq_iff_eq.mp h
      subst hk
      simp [List.lookup, h]
    | false => simp [List.lookup, h, ih]

theorem lookup_filter_none {α β : Type} (a : List (String × β)) (b : List (String × α))
    (k : String) :
    (b.filter (fun p => ((a.lookup p.1).isNone))).lookup k =
      match a.lookup k with
      | some _ => none
      | none => b.lookup k := by
  induction b with
  | nil => cases h : a.lookup k <;> simp [List.lookup, h]
  | cons p l ih =>
    rcases p with ⟨k₀, v₀⟩
    cases hk : k == k₀ with
    | true =>
      have hkk : k = k₀ := beq_iff_eq.mp hk
      subst hkk
      cases ha : a.lookup k with
      | none => simp [List.filter_cons, ha, List.lookup, hk]
      | some w => simp [List.filter_cons, ha, ih]
    | false =>
      cases hf : (a.lookup k₀).isNone with
      | true => simp [List.filter_cons, hf, List.lookup, hk, ih]
      | false => simp [List.filter_cons, hf, List.lookup, hk, ih]

theorem pyMerge_lookup {α : Type} (base soap : List (String × α)) (k : String) :
    (pyMerge base soap).lookup k =
      match soap.lookup k with
      | some w => some w
      | none => base.lookup k := by
  unfold pyMerge
  rw [lookup_append, lookup_map_getD, lookup_filter_none]
  cases hb : base.lookup k <;> cases hs : soap.lookup k <;> simp [hb, hs]

/-- C9: in the merged output record `\x7b**base, **soap_map[cid]\x7d`
(merge_soap_clean.py line 71), extracted-payload fields overwrite
WorkItem-derived fields on key collision — whenever the payload holds a
key, the merged record holds the payload's value — and base fields are
preserved exactly for the keys absent from the payload. -/
theorem merged_record_overwrite {α : Type} (base soap : List (String × α)) (k : String) :
    ((soap.lookup k).isSome = true → (pyMerge base soap).lookup k = soap.lookup k) ∧
    (soap.lookup k = none → (pyMerge base soap).lookup k = base.lookup k) := by
  constructor
  · intro h
    obtain ⟨w, hw⟩ := Option.isSome_iff_exists.mp h
    rw [pyMerge_lookup, hw]
  · intro h
    rw [pyMerge_lookup, h]

/-- Base facts of one WorkItem, as extracted by merge_soap_clean.py
lines 30-46 (a "gender" key included). -/
def exBaseFacts : List (String × String) := [("gender", "Male"), ("age", "52")]

/-- An extracted SOAP payload that collides with the facts on "gender". -/
def exSoapPayload : List (String × String) :=
  [("gender", "Female"), ("subjective", "complains of cough")]

/-- C9 witness: on the colliding key "gender" the merged record holds the
payload's value, and on "age", absent from the payload, the WorkItem's. -/
theorem merged_record_overwrite_witness :
    (pyMerge exBaseFacts exSoapPayload).lookup ("gender") =
      exSoapPayload.lookup ("gender") ∧
    (pyMerge exBaseFacts exSoapPayload).lookup ("age") = exBaseFacts.lookup ("age") :=
  ⟨(merged_record_overwrite exBaseFacts exSoapPayload ("gender")).1 (by decide),
   (merged_record_overwrite exBaseFacts exSoapPayload ("age")).2 (by decide)⟩

/-- The merge-and-write loop of merge_soap_clean.py lines 67-72 (same shape
at generate_soap_notes.py lines 164-172): one record
`\x7b**base, **soap_map[cid]\x7d` per WorkItem whose cid has an extracted
payload; WorkItems without a payload are skipped. -/
def mergeRecords (wi pl : List (String × List (String × String))) :
    List (String × List (String × String)) :=
  wi.filterMap (fun p => (pl.lookup p.1).map (fun s => (p.1, pyMerge p.2 s)))

/-- The unmatched correlation ids,
`missing = set(facts_map) - set(tx_map)` of generate_soap_notes.py line 90:
the ids the merge loop skips. -/
def missingIds {β γ : Type} (wi : List (String × β)) (pl : List (String × γ)) :
    List String :=
  (wi.filter (fun p => ((pl.lookup p.1).isNone))).map Prod.fst

theorem mergeRecords_map_fst (wi pl : List (String × List (String × String))) :
    (mergeRecords wi pl).map Prod.fst =
      (wi.map Prod.fst).filter (fun c => ((pl.lookup c).isSome)) := by
  induction wi with
  | nil => rfl
  | cons p l ih =>
    rcases p with ⟨c, b⟩
    simp only [mergeRecords] at ih
    cases h : pl.lookup c with
    | none => simp [mergeRecords, List.filterMap_cons, List.filter_cons, h, ih]
    | some s => simp [mergeRecords, List.filterMap_cons, List.filter_cons, h, ih]

theorem missingIds_eq {β γ : Type} (wi : List (String × β)) (pl : List (String × γ)) :
    missingIds wi pl = (wi.map Prod.fst).filter (fun c => ((pl.lookup c).isNone)) := by
  induction wi with
  | nil => rfl
  | cons p l ih =>
    rcases p with ⟨c, b⟩
    simp only [missingIds] at ih
    cases h : (pl.lookup c).isNone with
    | true => simp [missingIds, List.filter_cons, h, ih]
    | false => simp [missingIds, List.filter_cons, h, ih]

/-- C1: with pairwise-distinct WorkItem correlation ids, the merge loop
emits exactly one merged record for every id that has an extracted payload
and no record for any id without one, and the skipped ids are exactly the
reported missing set — no partial record is ever emitted. -/
theorem merge_completeness (wi pl : List (String × List (String × String)))
    (hnd : (wi.map Prod.fst).Nodup) :
    ((mergeRecords wi pl).map Prod.fst).Nodup ∧
    (∀ c, c ∈ (mergeRecords wi pl).map Prod.fst ↔
      c ∈ wi.map Prod.fst ∧ (pl.lookup c).isSome = true) ∧
    (∀ c, c ∈ missingIds wi pl ↔
      c ∈ wi.map Prod.fst ∧ (pl.lookup c).isNone = true) := by
  refine ⟨?_, ?_, ?_⟩
  · rw [mergeRecords_map_fst]
    exact hnd.filter _
  · intro c
    rw [mergeRecords_map_fst]
    exact List.mem_filter
  · intro c
    rw [missingIds_eq]
    exact List.mem_filter

/-- WorkItems \x7bA, B, C\x7d of the merge-completeness scenario. -/
def exWi : List (String × List (String × String)) :=
  [("A", [("age", "30")]), ("B", [("age", "40")]), ("C", [("age", "50")])]

/-- Extracted payloads \x7bA, C\x7d of the merge-completeness scenario. -/
def exPl : List (String × List (String × String)) :=
  [("A", [("subjective", "sA")]), ("C", [("subjective", "sC")])]

/-- C1 witness: for WorkItems \x7bA,B,C\x7d and payloads \x7bA,C\x7d the
merged ids are duplicate-free, A is merged, and B is missing. -/
theorem merge_completeness_witness :
    ((mergeRecords exWi exPl).map Prod.fst).Nodup ∧
    ("A" ∈ (mergeRecords exWi exPl).map Prod.fst) ∧
    ("B" ∈ missingIds exWi exPl) := by
  have h := merge_completeness exWi exPl (by decide)
  exact ⟨h.1, (h.2.1 ("A")).2 ⟨by decide, by decide⟩,
    (h.2.2 ("B")).2 ⟨by decide, by decide⟩⟩

/-- The missing-id gate of generate_soap_notes.py lines 90-92:
`missing = set(facts_map) - set(tx_map); if missing: sys.exit(f"❌
\x7blen(missing)\x7d transcriptions missing, cannot proceed")` — an abort
(modelled as `Except.error`) surfacing the missing count, taken whenever
any id is missing. -/
def checkMissingTx {β γ : Type} (facts : List (String × β)) (tx : List (String × γ)) :
    Except Nat Unit :=
  if (missingIds facts tx).length = 0 then .ok ()
  else .error ((missingIds facts tx).length)

/-- The whole merge stage of merge_soap_clean.py lines 67-74: it emits the
merged records and terminates normally — the script contains no missing-id
check and no failure exit, so its exit status is 0 regardless of how many
WorkItems lacked a payload. -/
def mergeSoapCleanRun (wi pl : List (String × List (String × String))) :
    List (String × List (String × String)) × Nat :=
  (mergeRecords wi pl, 0)

/-- C6: the claim states that every pipeline stage exits with a non-zero
status when the set of missing correlation ids after the merge is
non-empty — but the merge_soap_clean.py stage, on WorkItems \x7bA,B,C\x7d
with payloads only for \x7bA,C\x7d, has a non-empty missing set yet
completes with exit status 0, surfacing nothing. -/
theorem merge_soap_clean_no_abort :
    missingIds exWi exPl ≠ [] ∧ (mergeSoapCleanRun exWi exPl).2 = 0 := by
  exact ⟨by decide, rfl⟩

/-- C6 (amended): generate_soap_notes.py aborts with a failure signal
carrying the missing count whenever any transcription id is missing, but
the merge_soap_clean.py stage performs no missing-id check at all and
always terminates with status 0, silently emitting the reduced dataset —
the abort-on-missing convention does not hold for every stage. -/
theorem missing_ids_stage_policies {β γ : Type} (facts : List (String × β))
    (tx : List (String × γ)) (wi pl : List (String × List (String × String))) :
    (missingIds facts tx ≠ [] →
      checkMissingTx facts tx = .error ((missingIds facts tx).length)) ∧
    (mergeSoapCleanRun wi pl).2 = 0 := by
  constructor
  · intro h
    have hlen : ¬((missingIds facts tx).length = 0) := by
      intro h0
      exact h (List.length_eq_zero.mp h0)
    simp only [checkMissingTx, if_neg hlen]
  · rfl

/-- C6 witness: at the concrete WorkItems \x7bA,B,C\x7d / payloads
\x7bA,C\x7d, the generate_soap_notes gate errors with missing count 1 while
the merge_soap_clean stage reports success. -/
theorem missing_ids_stage_policies_witness :
    checkMissingTx exWi exPl = .error 1 ∧ (mergeSoapCleanRun exWi exPl).2 = 0 := by
  have h := missing_ids_stage_policies exWi exPl exWi exPl
  refine ⟨?_, h.2⟩
  have h1 := h.1 (by decide)
  rw [h1]
  rw [show (missingIds exWi exPl).length = 1 from by decide]

/-- Decimal digit character for `n % 10`. -/
def dChar (n : Nat) : Char :=
  match n % 10 with
  | 0 => '0'
  | 1 => '1'
  | 2 => '2'
  | 3 => '3'
  | 4 => '4'
  | 5 => '5'
  | 6 => '6'
  | 7 => '7'
  | 8 => '8'
  | _ => '9'

/-- Python `f"\x7bi:04d\x7d"`: the decimal digits of `i` left-padded with
zeros to width 4 (for `i < 10000`, exactly the four decimal digits; wider
numbers print unpadded). -/
def formatPad4 (i : Nat) : List Char :=
  if i < 10000 then
    [dChar (i / 1000 % 10), dChar (i / 100 % 10), dChar (i / 10 % 10), dChar (i % 10)]
  else (Nat.repr i).toList

/-- The correlation id `f"row\x7bi:04d\x7d"` of
generate_transcriptions_batch.py line 118. -/
def rowId (i : Nat) : List Char := ("row").toList ++ formatPad4 i

/-- The six demographic fields drawn by the random helpers of
generate_transcriptions_batch.py lines 67-71 for one row. -/
structure Demo where
  gender : String
  age : Nat
  smoker : String
  drinker : String
  blood_pressure : String
  chief_complaint : String
deriving DecidableEq

/-- One row of the local demographic dataframe
(generate_transcriptions_batch.py lines 117-125). -/
structure Row where
  row_id : List Char
  demo : Demo
deriving DecidableEq

/-- `CONFIG["TARGET_ROWS"]` of generate_transcriptions_batch.py line 51. -/
def TARGET_ROWS : Nat := 1032

/-- `build_rows` of generate_transcriptions_batch.py lines 106-126: the
demographic generator is abstracted as `gen`; the count argument `_n` is
accepted but ignored — the loop iterates over
`range(CONFIG["TARGET_ROWS"])`. -/
def buildRows (gen : Nat → Demo) ( _n : Nat) : List Row :=
  (List.range TARGET_ROWS).map (fun i => { row_id := rowId i, demo := gen i })

theorem dChar_inj (a b : Nat) (ha : a < 10) (hb : b < 10) (h : dChar a = dChar b) :
    a = b := by
  interval_cases a <;> interval_cases b <;> revert h <;> decide

theorem rowId_inj (i j : Nat) (hi : i < 10000) (hj : j < 10000)
    (h : rowId i = rowId j) : i = j := by
  have h4 : formatPad4 i = formatPad4 j := List.append_cancel_left h
  rw [formatPad4, formatPad4, if_pos hi, if_pos hj] at h4
  have e3 := List.head_eq_of_cons_eq h4
  have t3 := List.tail_eq_of_cons_eq h4
  have e2 := List.head_eq_of_cons_eq t3
  have t2 := List.tail_eq_of_cons_eq t3
  have e1 := List.head_eq_of_cons_eq t2
  have t1 := List.tail_eq_of_cons_eq t2
  have e0 := List.head_eq_of_cons_eq t1
  have d3 := dChar_inj _ _ (Nat.mod_lt _ (by decide)) (Nat.mod_lt _ (by decide)) e3
  have d2 := dChar_inj _ _ (Nat.mod_lt _ (by decide)) (Nat.mod_lt _ (by decide)) e2
  have d1 := dChar_inj _ _ (Nat.mod_lt _ (by decide)) (Nat.mod_lt _ (by decide)) e1
  have d0 := dChar_inj _ _ (Nat.mod_lt _ (by decide)) (Nat.mod_lt _ (by decide)) e0
  omega

/-- A fixed demographic draw, for concrete instantiations. -/
def exDemo : Demo := ⟨"Male", 44, "No", "No", "120/80", "headache"⟩

/-- C7: the claim states that the Request Builder invoked with a count N
produces exactly N WorkItems — but `build_rows` ignores its argument and
always builds `CONFIG["TARGET_ROWS"]` rows: invoked with 5 it does not
produce 5 items. -/
theorem build_rows_ignores_count :
    (buildRows (fun _ => exDemo) 5).length ≠ 5 := by
  simp [buildRows, TARGET_ROWS]

/-- C7 (amended): for every count argument and every demographic generator,
`build_rows` produces exactly `TARGET_ROWS` (1032) WorkItems whose
correlation ids `row0000`..`row1031` are pairwise distinct; only when
invoked with N = TARGET_ROWS — as the script does at
generate_transcriptions_batch.py line 128 — does it produce exactly N
items. -/
theorem build_rows_target_distinct (gen : Nat → Demo) (n : Nat) :
    (buildRows gen n).length = TARGET_ROWS ∧
    ((buildRows gen n).map Row.row_id).Nodup := by
  constructor
  · simp [buildRows]
  · have hmap : (buildRows gen n).map Row.row_id = (List.range TARGET_ROWS).map rowId := by
      simp [buildRows, List.map_map]
    rw [hmap]
    refine List.Nodup.map_on ?_ (List.nodup_range TARGET_ROWS)
    intro x hx y hy hxy
    have hx4 : x < 10000 := lt_trans (List.mem_range.mp hx) (by decide)
    have hy4 : y < 10000 := lt_trans (List.mem_range.mp hy) (by decide)
    exact rowId_inj x y hx4 hy4 hxy

/-- One line of batch_input.jsonl (generate_transcriptions_batch.py
lines 145-150): the correlation id and the rendered request payload. -/
structure BatchReq where
  custom_id : List Char
  payload : Demo
deriving DecidableEq

/-- The submission path of generate_transcriptions_batch.py lines 134-161
(same shape at generate_soap_notes.py lines 124-145): every row is
serialized to one request line with `custom_id = row_id`, and the file is
uploaded via `files.create` / `batches.create` unconditionally — the
script checks neither non-emptiness nor correlation-id uniqueness before
submitting. -/
def writeBatchInput (rows : List Row) : List BatchReq :=
  rows.map (fun r => { custom_id := r.row_id, payload := r.demo })

/-- Two rows sharing the correlation id `row0001`. -/
def dupRows : List Row :=
  [{ row_id := ("row0001").toList, demo := exDemo },
   { row_id := ("row0001").toList, demo := exDemo }]

/-- C8: the claim states that the submit operation fails with a
ValidationError when correlation-id uniqueness is violated — but the
submission path of this repository performs no validation: on a collection
of two items with the same id it serializes and submits both requests,
raising nothing. -/
theorem submit_no_uniqueness_validation :
    ¬(((writeBatchInput dupRows).map BatchReq.custom_id).Nodup) ∧
    (writeBatchInput dupRows).length = 2 := by
  exact ⟨by decide, rfl⟩

/-- C8 (amended): the submission path imposes no input constraint: for
every items collection — empty, or with duplicated correlation ids — it
emits exactly one request per item, ids passed through verbatim, and never
fails; any uniqueness enforcement is left to the external facility. -/
theorem submit_passthrough (rows : List Row) :
    (writeBatchInput rows).map BatchReq.custom_id = rows.map Row.row_id ∧
    (writeBatchInput rows).length = rows.length := by
  constructor
  · simp [writeBatchInput, List.map_map]
  · simp [writeBatchInput]

/-- One finished record of generate_transcriptions.py (lines 344-356): the
seven fields of `FIELDS` (lines 239-242). -/
structure PatientRec where
  gender : String
  age : Nat
  smoker : String
  drinker : String
  blood_pressure : String
  chief_complaint : String
  transcription : String
deriving DecidableEq

/-- The `UNIQUE_KEY` tuple of generate_transcriptions.py lines 239-243:
the full seven-field tuple of a record. -/
def recKey (r : PatientRec) :
    String × Nat × String × String × String × String × String :=
  (r.gender, r.age, r.smoker, r.drinker, r.blood_pressure, r.chief_complaint,
   r.transcription)

/-- The accumulation step of generate_transcriptions.py lines 372-377: for
each arriving record, `key = tuple(rec[f] for f in UNIQUE_KEY)`; if the key
was seen the record is skipped, otherwise it is appended to `rows` and its
key added to `seen`. -/
def dedupStep
    (st : List PatientRec × List (String × Nat × String × String × String × String × String))
    (rec : PatientRec) :
    List PatientRec × List (String × Nat × String × String × String × String × String) :=
  if recKey rec ∈ st.2 then st else (st.1 ++ [rec], recKey rec :: st.2)

theorem dedupStep_foldl_invariant (input : List PatientRec)
    (st : List PatientRec × List (String × Nat × String × String × String × String × String))
    (hnd : (st.1.map recKey).Nodup)
    (hseen : ∀ k, k ∈ st.2 ↔ k ∈ st.1.map recKey) :
    ((input.foldl dedupStep st).1.map recKey).Nodup ∧
    (∀ k, k ∈ (input.foldl dedupStep st).2 ↔
      k ∈ (input.foldl dedupStep st).1.map recKey) := by
  induction input generalizing st with
  | nil => exact ⟨hnd, hseen⟩
  | cons r l ih =>
    rw [List.foldl_cons]
    by_cases h : recKey r ∈ st.2
    · have hstep : dedupStep st r = st := by simp [dedupStep, h]
      rw [hstep]
      exact ih st hnd hseen
    · have hstep : dedupStep st r = (st.1 ++ [r], recKey r :: st.2) := by
        simp [dedupStep, h]
      rw [hstep]
      have hnotin : recKey r ∉ st.1.map recKey := fun m => h ((hseen (recKey r)).mpr m)
      have hmap : (st.1 ++ [r]).map recKey = st.1.map recKey ++ [recKey r] := by
        simp
      refine ih _ ?_ ?_
      · rw [hmap]
        exact ((List.perm_append_singleton (recKey r) (st.1.map recKey)).nodup_iff).mpr
          (List.nodup_cons.mpr ⟨hnotin, hnd⟩)
      · intro k
        rw [hmap]
        constructor
        · intro hk
          rcases List.mem_cons.mp hk with h1 | h2
          · exact List.mem_append.mpr (Or.inr (h1 ▸ List.mem_singleton_self _))
          · exact List.mem_append.mpr (Or.inl ((hseen k).mp h2))
        · intro hk
          rcases List.mem_append.mp hk with h1 | h2
          · exact List.mem_cons.mpr (Or.inr ((hseen k).mpr h1))
          · exact List.mem_cons.mpr (Or.inl (List.mem_singleton.mp h2))

/-- C10: starting from the empty rows list and empty seen set, the
accumulation loop of generate_transcriptions.py maintains for every input
stream the invariant that no two accumulated records agree on the full
seven-field `UNIQUE_KEY` tuple and that the seen set holds exactly the key
tuples of the accumulated rows — hence every record of the final written
dataset is unique under that key. -/
theorem transcription_rows_unique (input : List PatientRec) :
    (((input.foldl dedupStep ([], [])).1.map recKey).Nodup) ∧
    (∀ k, k ∈ (input.foldl dedupStep ([], [])).2 ↔
      k ∈ (input.foldl dedupStep ([], [])).1.map recKey) :=
  dedupStep_foldl_invariant input ([], []) List.nodup_nil (by simp)
